import Mathlib

/-!
Verification of the post scheduling and publication engine
(`src/schedulers/postScheduler.js` and `src/services/postService.js`)
against its natural-language specification.

The JavaScript code is shallowly embedded: JS `Date` values are modelled as a
civil calendar tuple (year, 0-based month, 1-based day, milliseconds within
the day), matching the observable behavior of the `getDate`/`setDate`/
`getMonth`/`setMonth` methods the scheduler uses; `Date` comparison is
modelled by comparison of milliseconds since the Unix epoch (valid for all
dates at or after 1970-01-01, which covers every date this system stores).
JS `||` coalescing and truthiness (null / undefined / empty string / zero
are falsy) are modelled explicitly.  Database rows are records; each SQL
statement's effect is modelled on those records, with an explicit
success/failure outcome for every write so that persistence errors can be
analysed.  The remote publication API (axios POST to the X API) is an
oracle giving the outcome of each HTTP invocation in order.
-/

/-- JS truthiness for a nullable string: `null`/`undefined` and `""` are falsy. -/
def jsTruthy : Option String → Bool
  | some s => s ≠ ""
  | none => false

/-- JS `a || b` for a nullable string `a`: yields `a` when truthy, else `b`. -/
def jsOrStr (a : Option String) (b : String) : String :=
  match a with
  | some s => if s = "" then b else s
  | none => b

/-- JS `a || b` for a nullable number `a`: `null`/`undefined` and `0` are falsy. -/
def jsOrNat (a : Option Nat) (b : Nat) : Nat :=
  match a with
  | some n => if n = 0 then b else n
  | none => b

/-- A thrown JS error as observed by the catch blocks: `error.response?.data?.detail`
and `error.message`. -/
structure JsErr where
  detail : Option String
  message : String
deriving DecidableEq

/-- JS `error.response?.data?.detail || error.message` (postService catch blocks). -/
def JsErr.coalesce (e : JsErr) : String :=
  jsOrStr e.detail e.message

/-- JS `error.response?.data?.detail || error.message || 'Unknown error'`
(processPost catch block). -/
def JsErr.coalesceD (e : JsErr) : String :=
  jsOrStr e.detail (if e.message = "" then "Unknown error" else e.message)

/-- Leap year test of the Gregorian calendar. -/
def isLeap (y : Nat) : Bool :=
  y % 4 == 0 && (y % 100 != 0 || y % 400 == 0)

/-- Number of days of month `m` (0-based, as JS `getMonth`) of year `y`. -/
def daysInMonth (y m : Nat) : Nat :=
  if m = 1 then (if isLeap y then 29 else 28)
  else if m = 3 ∨ m = 5 ∨ m = 8 ∨ m = 10 then 30
  else 31

/-- Year after folding a (possibly overflowing) 0-based month index into it. -/
def normY (y m : Nat) : Nat := y + m / 12

/-- Month after folding a (possibly overflowing) 0-based month index. -/
def normM (m : Nat) : Nat := m % 12

/-- Normalization of a (year, 0-based month, 1-based day) triple in which the
month and the day may overflow their ranges, as performed by the `MakeDay`
operation underlying JS `Date.setDate`/`Date.setMonth`: excess months roll
into the year and excess days roll into the following month(s).  The first
argument is recursion fuel; one unit per month rolled, so fuel `d` is always
sufficient since every month absorbs at least 28 days. -/
def normDate : Nat → Nat → Nat → Nat → Nat × Nat × Nat
  | 0, y, m, d => (normY y m, normM m, d)
  | fuel+1, y, m, d =>
    let y' := normY y m
    let m' := normM m
    if d ≤ daysInMonth y' m' then (y', m', d)
    else normDate fuel y' (m' + 1) (d - daysInMonth y' m')

/-- A JS `Date`, by its civil-calendar observables: year, 0-based month,
1-based day, and milliseconds within the day. -/
structure DateTime where
  year : Nat
  month : Nat
  day : Nat
  msOfDay : Nat
deriving DecidableEq

/-- Rebuild a `DateTime` from possibly-overflowing month and day fields,
normalizing as JS `Date` field updates do. -/
def resolveDate (y m d ms : Nat) : DateTime :=
  let t := normDate d y m d
  ⟨t.1, t.2.1, t.2.2, ms⟩

/-- JS `date.setDate(newD)`: replace the day-of-month, normalizing overflow. -/
def DateTime.setDate (dt : DateTime) (newD : Nat) : DateTime :=
  resolveDate dt.year dt.month newD dt.msOfDay

/-- JS `date.setMonth(newM)`: replace the month, normalizing overflow of both
the month index and the (now possibly invalid) day-of-month. -/
def DateTime.setMonth (dt : DateTime) (newM : Nat) : DateTime :=
  resolveDate dt.year newM dt.day dt.msOfDay

/-- Days from 1970-01-01 to the given civil date (month `m` is 1-based here);
standard era-based conversion, valid for dates at or after 1970-01-01. -/
def daysFromCivil (y m d : Nat) : Nat :=
  let yAdj := if m ≤ 2 then y - 1 else y
  let era := yAdj / 400
  let yoe := yAdj % 400
  let mp := (m + 9) % 12
  let doy := (153 * mp + 2) / 5 + d - 1
  let doe := yoe * 365 + yoe / 4 - yoe / 100 + doy
  era * 146097 + doe - 719468

/-- JS `date.valueOf()`: milliseconds since the Unix epoch.  `Date` comparisons
(`<`, `>`) compare this value. -/
def DateTime.toMs (dt : DateTime) : Nat :=
  daysFromCivil dt.year (dt.month + 1) dt.day * 86400000 + dt.msOfDay

/-!
Data model: the columns of a `posts` row that the scheduler reads
(`src/schedulers/postScheduler.js`, SELECT at lines 22-50), together with the
joined `social_accounts` columns.  JSONB columns (`thread`, `media`) are
modelled in already-parsed form: `thread` as the list of segment texts,
`media` as the list of `media_id` values (`safeParseJSON` plus the
`m => m.media_id` projection in postService).  Nullable columns are
`Option`s.
-/

/-- A `posts` row, as read by the scheduler query and by `postToPlatform`. -/
structure Post where
  id : Nat
  account_id : Nat
  content : String
  mode : Option String
  thread : Option (List String)
  reply_to_id : Option String
  quote_tweet_id : Option String
  media : Option (List String)
  status : String
  scheduled_at : Option DateTime
  repeat_enabled : Bool
  repeat_frequency : Option String
  repeat_until : Option DateTime
  repeat_count : Option Nat
  repeat_parent_id : Option Nat
  repeat_occurrence : Option Nat
deriving DecidableEq

/-- A row of the scheduler's batch query: a post joined with its owning
account's `platform`, `access_token` and `is_active` columns. -/
structure ScheduledRow extends Post where
  platform : String
  access_token : Option String
  is_active : Bool
deriving DecidableEq

/-!
Embedding of `src/services/postService.js`.  Each axios POST to the X API is
recorded as a `TweetReq` (the request body fields the service fills in), and
its outcome is given by an oracle mapping the index of the invocation (0 for
the first HTTP call made while handling one post, 1 for the next, ...) to
either the created tweet's id or a thrown error.
-/

/-- The request body of one axios POST to `/tweets`: text, optional
`reply.in_reply_to_tweet_id`, optional `quote_tweet_id`, optional
`media.media_ids`. -/
structure TweetReq where
  text : String
  replyTo : Option String
  quoteOf : Option String
  mediaIds : Option (List String)
deriving DecidableEq

/-- The result object returned by the postService functions:
`{ success, tweetId, threadIds, error }` (absent fields are `none`). -/
structure XResult where
  success : Bool
  tweetId : Option String
  threadIds : Option (List String)
  error : Option String
deriving DecidableEq

/-- Outcome oracle for the HTTP calls made while publishing one post, indexed
by invocation order. -/
abbrev ApiOracle := Nat → Except JsErr String

/-- Embedding of `postSingleTweet` (postService.js lines 28-55): one POST with
the text and optional media; success yields the created id, a thrown error
yields a failure result with the coalesced message. -/
def postSingleTweet (text accessToken : String) (media : Option (List String))
    (api : ApiOracle) : List TweetReq × XResult :=
  let req : TweetReq := ⟨text, none, none, media⟩
  match api 0 with
  | Except.ok tid => ([req], ⟨true, some tid, none, none⟩)
  | Except.error e => ([req], ⟨false, none, none, some e.coalesce⟩)

/-- Embedding of the reply loop of `postThread` (postService.js lines 94-111):
posts each remaining segment as a reply to the id returned by the previous
invocation, aborting on the first thrown error.  Arguments: oracle, index of
the next invocation, id to reply to, remaining segments.  Returns the
requests made and either the ids created by these calls or the error. -/
def postThreadLoop (api : ApiOracle) : Nat → String → List String →
    List TweetReq × Except JsErr (List String)
  | _, _, [] => ([], Except.ok [])
  | i, inReplyToId, t :: rest =>
    let req : TweetReq := ⟨t, some inReplyToId, none, none⟩
    match api i with
    | Except.error e => ([req], Except.error e)
    | Except.ok newId =>
      match postThreadLoop api (i+1) newId rest with
      | (reqs, Except.ok ids) => (req :: reqs, Except.ok (newId :: ids))
      | (reqs, Except.error e) => (req :: reqs, Except.error e)

/-- Embedding of `postThread` (postService.js lines 64-124): requires an array
of at least 2 segments; posts the first with the media, then each further
segment as a reply to its predecessor's id. -/
def postThread (thread : Option (List String)) (accessToken : String)
    (media : Option (List String)) (api : ApiOracle) : List TweetReq × XResult :=
  match thread with
  | none => ([], ⟨false, none, none, some "Thread must have at least 2 tweets"⟩)
  | some threadArray =>
    if threadArray.length < 2 then
      ([], ⟨false, none, none, some "Thread must have at least 2 tweets"⟩)
    else
      match threadArray with
      | [] => ([], ⟨false, none, none, some "Thread must have at least 2 tweets"⟩)
      | t0 :: rest =>
        let req0 : TweetReq := ⟨t0, none, none, media⟩
        match api 0 with
        | Except.error e => ([req0], ⟨false, none, none, some e.coalesce⟩)
        | Except.ok id0 =>
          match postThreadLoop api 1 id0 rest with
          | (reqs, Except.ok ids) =>
            (req0 :: reqs, ⟨true, some id0, some (id0 :: ids), none⟩)
          | (reqs, Except.error e) =>
            (req0 :: reqs, ⟨false, none, none, some e.coalesce⟩)

/-- Embedding of `postReply` (postService.js lines 134-162). -/
def postReply (text replyToId accessToken : String) (media : Option (List String))
    (api : ApiOracle) : List TweetReq × XResult :=
  let req : TweetReq := ⟨text, some replyToId, none, media⟩
  match api 0 with
  | Except.ok tid => ([req], ⟨true, some tid, none, none⟩)
  | Except.error e => ([req], ⟨false, none, none, some e.coalesce⟩)

/-- Embedding of `postQuote` (postService.js lines 172-200). -/
def postQuote (text quoteTweetId accessToken : String) (media : Option (List String))
    (api : ApiOracle) : List TweetReq × XResult :=
  let req : TweetReq := ⟨text, none, some quoteTweetId, media⟩
  match api 0 with
  | Except.ok tid => ([req], ⟨true, some tid, none, none⟩)
  | Except.error e => ([req], ⟨false, none, none, some e.coalesce⟩)

/-- Embedding of `postToPlatform` (postService.js lines 208-242): dispatch on
`post.mode || 'single'`, with guards for missing reply/quote references. -/
def postToPlatform (post : Post) (accessToken : String) (api : ApiOracle) :
    List TweetReq × XResult :=
  let mode := jsOrStr post.mode "single"
  if mode = "single" then
    postSingleTweet post.content accessToken post.media api
  else if mode = "thread" then
    postThread post.thread accessToken post.media api
  else if mode = "reply" then
    if jsTruthy post.reply_to_id = false then
      ([], ⟨false, none, none, some "reply_to_id is required for reply mode"⟩)
    else
      postReply post.content (post.reply_to_id.getD "") accessToken post.media api
  else if mode = "quote" then
    if jsTruthy post.quote_tweet_id = false then
      ([], ⟨false, none, none, some "quote_tweet_id is required for quote mode"⟩)
    else
      postQuote post.content (post.quote_tweet_id.getD "") accessToken post.media api
  else
    ([], ⟨false, none, none, some ("Unknown post mode: " ++ mode)⟩)

/-!
Embedding of `src/schedulers/postScheduler.js`.  The mutable columns of one
post's row are a `PostRecord`; the effect of processing one selected post is
the updated record, the list of rows INSERTed for recurrence, and the HTTP
requests made.  Each UPDATE/INSERT may fail (the store throwing), which is
given by explicit outcome parameters.
-/

/-- The batch size cap (`BATCH_SIZE` constant, postScheduler.js line 8). -/
def BATCH_SIZE : Nat := 10

/-- The WHERE clause of the batch query (postScheduler.js lines 44-46):
`status = 'scheduled' AND scheduled_at <= NOW() AND sa.is_active = true`
(a NULL `scheduled_at` satisfies no comparison). -/
def dueFilter (now : DateTime) (r : ScheduledRow) : Bool :=
  decide (r.status = "scheduled") &&
    (match r.scheduled_at with
     | some t => decide (t.toMs ≤ now.toMs)
     | none => false) &&
    r.is_active

/-- Sort key of the ORDER BY clause: the due timestamp. -/
def schedKey (r : ScheduledRow) : Nat :=
  match r.scheduled_at with
  | some t => t.toMs
  | none => 0

/-- Embedding of the batch query of `processScheduledPosts` (postScheduler.js
lines 22-50) over the store's joined rows: WHERE filter, ORDER BY
`scheduled_at ASC`, LIMIT `BATCH_SIZE`. -/
def processScheduledPostsQuery (rows : List ScheduledRow) (now : DateTime) :
    List ScheduledRow :=
  (((rows.filter (dueFilter now)).mergeSort
      (fun a b => decide (schedKey a ≤ schedKey b))).take BATCH_SIZE)

/-- The mutable result columns of one post's row. -/
structure PostRecord where
  status : String
  error_message : Option String
  platform_post_id : Option String
  platform_thread_ids : Option (List String)
  posted_at : Option DateTime
deriving DecidableEq

/-- Embedding of `markPostAsFailed` (postScheduler.js lines 225-238): an
UPDATE setting `status='failed'` and the error message; a store error while
writing is caught and leaves the row unchanged.  `failOk` tells whether this
write succeeds. -/
def markPostAsFailed (pr : PostRecord) (errorMessage : Option String)
    (failOk : Bool) : PostRecord :=
  if failOk then { pr with status := "failed", error_message := errorMessage }
  else pr

/-- The `repeat_until` guard (postScheduler.js line 147):
`post.repeat_until && new Date(post.repeat_until) < now`. -/
def untilPassed (u : Option DateTime) (now : DateTime) : Bool :=
  match u with
  | some t => decide (t.toMs < now.toMs)
  | none => false

/-- The `repeat_count` guard (postScheduler.js line 153):
`post.repeat_count && post.repeat_occurrence >= post.repeat_count`; a zero
count is falsy, a NULL occurrence coerces to 0. -/
def countReached (cnt : Option Nat) (occ : Option Nat) : Bool :=
  match cnt with
  | some c => if c = 0 then false else decide (occ.getD 0 ≥ c)
  | none => false

/-- The frequency switch (postScheduler.js lines 162-175): `daily` adds one
day, `weekly` seven days, `monthly` one month via `setMonth`; any other
frequency yields no next time (the function returns). -/
def nextByFrequency (freq : Option String) (cur : DateTime) : Option DateTime :=
  match freq with
  | some "daily" => some (cur.setDate (cur.day + 1))
  | some "weekly" => some (cur.setDate (cur.day + 7))
  | some "monthly" => some (cur.setMonth (cur.month + 1))
  | _ => none

/-- The post-computation `repeat_until` guard (postScheduler.js line 178):
`post.repeat_until && nextScheduled > new Date(post.repeat_until)`. -/
def exceedsUntil (u : Option DateTime) (nxt : DateTime) : Bool :=
  match u with
  | some t => decide (nxt.toMs > t.toMs)
  | none => false

/-- The row INSERTed for the next occurrence (postScheduler.js lines 188-212).
The store assigns the new row's id (SERIAL); it is modelled as 0 here since
nothing in the scheduler reads it. -/
def mkNextPost (post : Post) (nextScheduled : DateTime) : Post :=
  { id := 0
    account_id := post.account_id
    content := post.content
    mode := post.mode
    thread := post.thread
    reply_to_id := post.reply_to_id
    quote_tweet_id := post.quote_tweet_id
    media := post.media
    status := "scheduled"
    scheduled_at := some nextScheduled
    repeat_enabled := true
    repeat_frequency := post.repeat_frequency
    repeat_until := post.repeat_until
    repeat_count := post.repeat_count
    repeat_parent_id := some (jsOrNat post.repeat_parent_id post.id)
    repeat_occurrence := some (jsOrNat post.repeat_occurrence 1 + 1) }

/-- The decision logic of `createNextRecurringPost` (postScheduler.js lines
141-214): the guard sequence, the frequency arithmetic on
`new Date(post.scheduled_at || now)`, and the row to insert. -/
def computeNextRecurring (post : Post) (now : DateTime) : Option Post :=
  if untilPassed post.repeat_until now then none
  else if countReached post.repeat_count post.repeat_occurrence then none
  else
    let currentScheduled := post.scheduled_at.getD now
    match nextByFrequency post.repeat_frequency currentScheduled with
    | none => none
    | some nextScheduled =>
      if exceedsUntil post.repeat_until nextScheduled then none
      else some (mkNextPost post nextScheduled)

/-- Embedding of `createNextRecurringPost` including the INSERT effect: the
list of rows inserted into the store.  `insertOk` tells whether the INSERT
succeeds; a store error is caught and only logged, inserting nothing. -/
def createNextRecurringPost (post : Post) (now : DateTime) (insertOk : Bool) :
    List Post :=
  match computeNextRecurring post now with
  | some q => if insertOk then [q] else []
  | none => []

/-- The full effect of `processPost` on one selected post. -/
structure ProcessResult where
  record : PostRecord
  inserted : List Post
  requests : List TweetReq
deriving DecidableEq

/-- Embedding of `processPost` (postScheduler.js lines 76-135).  `pr` is the
post's stored record when the cycle begins; `postedErr` is the outcome of the
UPDATE writing the `posted` result (`none` = write succeeded, `some e` = the
store threw `e`, diverting control to the catch block, which calls
`markPostAsFailed` with the coalesced message); `failOk` and `insertOk` are
the outcomes of the failure UPDATE and the recurrence INSERT. -/
def processPost (row : ScheduledRow) (pr : PostRecord) (api : ApiOracle)
    (now : DateTime) (postedErr : Option JsErr) (failOk insertOk : Bool) :
    ProcessResult :=
  if row.platform ≠ "x" then
    ⟨markPostAsFailed pr
        (some ("Platform '" ++ row.platform ++ "' not yet supported")) failOk,
      [], []⟩
  else if jsTruthy row.access_token = false then
    ⟨markPostAsFailed pr (some "No access token found") failOk, [], []⟩
  else
    let sent := postToPlatform row.toPost (row.access_token.getD "") api
    if sent.2.success then
      match postedErr with
      | none =>
        let updated : PostRecord :=
          { status := "posted"
            error_message := none
            platform_post_id := sent.2.tweetId
            platform_thread_ids := sent.2.threadIds
            posted_at := some now }
        if row.repeat_enabled && jsTruthy row.repeat_frequency then
          ⟨updated, createNextRecurringPost row.toPost now insertOk, sent.1⟩
        else
          ⟨updated, [], sent.1⟩
      | some e =>
        ⟨markPostAsFailed pr (some e.coalesceD) failOk, [], sent.1⟩
    else
      ⟨markPostAsFailed pr sent.2.error failOk, [], sent.1⟩

/-!
Model of the started scheduler loop (`startScheduler`, postScheduler.js lines
243-268) on the JS event loop.  `processScheduledPosts` is an async function:
it runs synchronously up to its first `await` (the batch query) and then
suspends, resuming on later event-loop turns as each awaited I/O completes.
The cron task registered at lines 260-265 invokes the callback
`() => { processScheduledPosts(); }` on every tick; the callback neither
awaits the returned promise nor consults any running-cycle guard, so a tick
starts a new cycle unconditionally.  A state records, for every in-flight
cycle, how many awaited I/O completions it still needs.
-/

/-- State of the event loop: the pending I/O step counts of the in-flight
batch cycles, oldest first. -/
structure LoopState where
  active : List Nat
deriving DecidableEq

/-- One cron tick (postScheduler.js lines 260-262): the callback calls
`processScheduledPosts()` with no guard and no await, so a fresh cycle
needing `cycleSteps` I/O completions joins the in-flight cycles whatever the
current state is. -/
def cronTick (cycleSteps : Nat) (s : LoopState) : LoopState :=
  ⟨cycleSteps :: s.active⟩

/-- One I/O completion: the oldest in-flight cycle advances one step,
finishing when it was its last pending step. -/
def resumeOldest (s : LoopState) : LoopState :=
  match s.active with
  | [] => s
  | n :: rest => if n ≤ 1 then ⟨rest⟩ else ⟨(n-1) :: rest⟩

/-- An event-loop turn relevant to the scheduler. -/
inductive SchedEvent where
  | tick
  | resume
deriving DecidableEq

/-- Transition of the loop state on one event. -/
def schedStep (cycleSteps : Nat) (s : LoopState) : SchedEvent → LoopState
  | SchedEvent.tick => cronTick cycleSteps s
  | SchedEvent.resume => resumeOldest s

/-- State after a trace of events, starting idle. -/
def runSched (cycleSteps : Nat) (events : List SchedEvent) : LoopState :=
  events.foldl (schedStep cycleSteps) ⟨[]⟩

/-- Number of batch cycles running concurrently. -/
def concurrentCycles (s : LoopState) : Nat := s.active.length

/-!
Lemmas about the calendar arithmetic.
-/

theorem daysInMonth_ge (y m : Nat) : 28 ≤ daysInMonth y m := by
  unfold daysInMonth
  split
  · split <;> omega
  · split <;> omega

theorem daysInMonth_le (y m : Nat) : daysInMonth y m ≤ 31 := by
  unfold daysInMonth
  split
  · split <;> omega
  · split <;> omega

theorem normDate_stop (f y m d : Nat)
    (hd : d ≤ daysInMonth (normY y m) (normM m)) :
    normDate f y m d = (normY y m, normM m, d) := by
  cases f with
  | zero => rfl
  | succ f => simp only [normDate]; rw [if_pos hd]

theorem normDate_carry (f y m d : Nat)
    (h1 : daysInMonth (normY y m) (normM m) < d)
    (h2 : d ≤ daysInMonth (normY y m) (normM m) + 28)
    (hf : 1 ≤ f) :
    normDate f y m d =
      (normY (normY y m) (normM m + 1), normM (normM m + 1),
        d - daysInMonth (normY y m) (normM m)) := by
  obtain ⟨g, rfl⟩ : ∃ g, f = g + 1 := ⟨f - 1, by omega⟩
  simp only [normDate]
  rw [if_neg (by omega)]
  exact normDate_stop g _ _ _
    (by
      have := daysInMonth_ge (normY (normY y m) (normM m + 1)) (normM (normM m + 1))
      omega)

/-- Characterization of `setMonth (month + 1)` on a date whose day-of-month is
in the valid range 1..31: the month advances by one calendar month (rolling
into the next year from December); if the source day exists in the target
month it is kept, otherwise the excess days roll into the month after the
target month. -/
theorem setMonth_succ_spec (s : DateTime) (hd1 : 1 ≤ s.day) (hd31 : s.day ≤ 31) :
    s.setMonth (s.month + 1) =
      if s.day ≤ daysInMonth (normY s.year (s.month + 1)) (normM (s.month + 1)) then
        ⟨normY s.year (s.month + 1), normM (s.month + 1), s.day, s.msOfDay⟩
      else
        ⟨normY (normY s.year (s.month + 1)) (normM (s.month + 1) + 1),
          normM (normM (s.month + 1) + 1),
          s.day - daysInMonth (normY s.year (s.month + 1)) (normM (s.month + 1)),
          s.msOfDay⟩ := by
  unfold DateTime.setMonth resolveDate
  split
  · rename_i h
    rw [normDate_stop s.day s.year (s.month + 1) s.day h]
  · rename_i h
    rw [normDate_carry s.day s.year (s.month + 1) s.day (by omega)
      (by
        have := daysInMonth_ge (normY s.year (s.month + 1)) (normM (s.month + 1))
        omega)
      (by omega)]

/-!
Claim C1: monthly recurrence arithmetic.
-/

/-- The spec's monthly rule as the spec words it: advance one calendar month
preserving time-of-day, and when the source day-of-month does not exist in
the target month, clamp to the last valid day of the target month.  Stated
for comparison with the implementation's `setMonth` arithmetic. -/
def specMonthlyClamped (dt : DateTime) : DateTime :=
  ⟨normY dt.year (dt.month + 1), normM (dt.month + 1),
    min dt.day (daysInMonth (normY dt.year (dt.month + 1)) (normM (dt.month + 1))),
    dt.msOfDay⟩

/-- A monthly recurring post due on 2024-01-31T09:00:00Z with no end date and
no count limit, as selected by the scheduler. -/
def c1Post : Post :=
  { id := 7
    account_id := 3
    content := "hello"
    mode := some "single"
    thread := none
    reply_to_id := none
    quote_tweet_id := none
    media := none
    status := "scheduled"
    scheduled_at := some ⟨2024, 0, 31, 32400000⟩
    repeat_enabled := true
    repeat_frequency := some "monthly"
    repeat_until := none
    repeat_count := none
    repeat_parent_id := none
    repeat_occurrence := some 1 }

/-- Publication time for the C1 scenario: 2024-01-31T10:00:00Z. -/
def c1Now : DateTime := ⟨2024, 0, 31, 36000000⟩

/-- C1 counterexample: for the monthly post due 2024-01-31T09:00:00Z, the code
schedules the next occurrence at 2024-03-02T09:00:00Z (JS `setMonth` lets the
nonexistent February 31 overflow into March), not at the clamped last valid
day 2024-02-29T09:00:00Z that the claim requires. -/
theorem C1_counterexample :
    (createNextRecurringPost c1Post c1Now true).map Post.scheduled_at =
      [some ⟨2024, 2, 2, 32400000⟩] ∧
    specMonthlyClamped ⟨2024, 0, 31, 32400000⟩ = ⟨2024, 1, 29, 32400000⟩ ∧
    (⟨2024, 2, 2, 32400000⟩ : DateTime) ≠ ⟨2024, 1, 29, 32400000⟩ := by
  refine ⟨by decide, by decide, by decide⟩

/-- C1 amended: for every recurring post with frequency `monthly` that passes
the end-time and occurrence-count checks, the next occurrence keeps the
time-of-day and advances by one calendar month; when the source day-of-month
exists in the target month it is kept, and when it does not (e.g. January 31
advancing to February), the date is NOT clamped: the excess days overflow
into the month after the target month (JS `setMonth` semantics), e.g.
January 31 advances to March 2 in a leap year. -/
theorem C1_amended (p : Post) (now s : DateTime)
    (hfreq : p.repeat_frequency = some "monthly")
    (hsched : p.scheduled_at = some s)
    (hd1 : 1 ≤ s.day) (hd31 : s.day ≤ 31)
    (h1 : untilPassed p.repeat_until now = false)
    (h2 : countReached p.repeat_count p.repeat_occurrence = false)
    (h3 : exceedsUntil p.repeat_until (s.setMonth (s.month + 1)) = false) :
    (createNextRecurringPost p now true).map Post.scheduled_at =
      [some (if s.day ≤ daysInMonth (normY s.year (s.month + 1)) (normM (s.month + 1)) then
          ⟨normY s.year (s.month + 1), normM (s.month + 1), s.day, s.msOfDay⟩
        else
          ⟨normY (normY s.year (s.month + 1)) (normM (s.month + 1) + 1),
            normM (normM (s.month + 1) + 1),
            s.day - daysInMonth (normY s.year (s.month + 1)) (normM (s.month + 1)),
            s.msOfDay⟩)] := by
  rw [← setMonth_succ_spec s hd1 hd31]
  unfold createNextRecurringPost computeNextRecurring
  rw [h1, hsched]
  simp only [Bool.false_eq_true, if_false, h2, Option.getD_some, hfreq,
    nextByFrequency, h3]
  simp [mkNextPost]

/-- A monthly recurring post due on 2024-02-15T09:00:00Z. -/
def c1wPost : Post :=
  { c1Post with scheduled_at := some ⟨2024, 1, 15, 32400000⟩ }

/-- Publication time for the C1 witness scenario: 2024-02-15T10:00:00Z. -/
def c1wNow : DateTime := ⟨2024, 1, 15, 36000000⟩

/-- Witness for C1 amended at a concrete input: February 15 advances to
March 15, same time-of-day. -/
theorem C1_amended_witness :
    (createNextRecurringPost c1wPost c1wNow true).map Post.scheduled_at =
      [some ⟨2024, 2, 15, 32400000⟩] :=
  C1_amended c1wPost c1wNow ⟨2024, 1, 15, 32400000⟩ rfl rfl (by decide)
    (by decide) (by decide) (by decide) (by decide)

/-!
Claim C2: persistence failure after a successful transport call.
-/

/-- A non-recurring single-mode post due 2024-01-31T09:00:00Z. -/
def c2Post : Post :=
  { id := 11
    account_id := 3
    content := "hi"
    mode := none
    thread := none
    reply_to_id := none
    quote_tweet_id := none
    media := none
    status := "scheduled"
    scheduled_at := some ⟨2024, 0, 31, 32400000⟩
    repeat_enabled := false
    repeat_frequency := none
    repeat_until := none
    repeat_count := none
    repeat_parent_id := none
    repeat_occurrence := some 1 }

/-- The C2 post joined with an active X account holding a token. -/
def c2Row : ScheduledRow :=
  { toPost := c2Post
    platform := "x"
    access_token := some "tok"
    is_active := true }

/-- The stored record of a scheduled post before its cycle. -/
def scheduledRecord : PostRecord :=
  ⟨"scheduled", none, none, none, none⟩

/-- A transport oracle on which every HTTP call succeeds. -/
def okApi : ApiOracle := fun _ => Except.ok "tw1"

/-- The store error thrown while persisting the `posted` result. -/
def c2Err : JsErr := ⟨none, "update failed: connection terminated"⟩

/-- Cycle time of the C2 scenario: 2024-01-31T10:00:00Z. -/
def c2Now : DateTime := ⟨2024, 0, 31, 36000000⟩

/-- C2 counterexample: when the transport call succeeds but the write of the
`posted` result throws, control reaches the catch block of `processPost`,
which calls `markPostAsFailed`; if that second write succeeds, the stored
status is `failed`, not the `scheduled` the claim asserts. -/
theorem C2_counterexample :
    (processPost c2Row scheduledRecord okApi c2Now (some c2Err) true true).record.status
        = "failed" ∧
    ¬ (processPost c2Row scheduledRecord okApi c2Now (some c2Err) true true).record.status
        = "scheduled" := by
  refine ⟨by decide, by decide⟩

/-- C2 amended: for every post whose transport call succeeds but whose
persistence of the `posted` result throws, `processPost`'s catch block marks
the post `failed` with the persistence error's coalesced message; only when
that failure-write itself also fails does the post remain `scheduled` (and is
then reselected on the next cycle).  No recurrence row is inserted on this
path. -/
theorem C2_amended (row : ScheduledRow) (pr : PostRecord) (api : ApiOracle)
    (now : DateTime) (e : JsErr) (failOk insertOk : Bool)
    (hplat : row.platform = "x")
    (htok : jsTruthy row.access_token = true)
    (hsucc : (postToPlatform row.toPost (row.access_token.getD "") api).2.success = true)
    (hstat : pr.status = "scheduled") :
    (processPost row pr api now (some e) failOk insertOk).record.status =
      (if failOk then "failed" else "scheduled") ∧
    (processPost row pr api now (some e) failOk insertOk).record.error_message =
      (if failOk then some e.coalesceD else pr.error_message) ∧
    (processPost row pr api now (some e) failOk insertOk).inserted = [] := by
  cases failOk <;>
    simp [processPost, hplat, htok, hsucc, markPostAsFailed, hstat]

/-- Witness for C2 amended: at the concrete C2 scenario with a succeeding
failure-write, the stored status is `failed` with the store error's message. -/
theorem C2_amended_witness :
    (processPost c2Row scheduledRecord okApi c2Now (some c2Err) true true).record.status
        = "failed" ∧
    (processPost c2Row scheduledRecord okApi c2Now (some c2Err) true true).record.error_message
        = some "update failed: connection terminated" ∧
    (processPost c2Row scheduledRecord okApi c2Now (some c2Err) true true).inserted = [] :=
  C2_amended c2Row scheduledRecord okApi c2Now c2Err true true rfl (by decide)
    (by decide) rfl

/-!
Claim C3: non-overlap of batch cycles.
-/

/-- C3: the started scheduler does not prevent overlapping cycles.  In the
event-loop model of `startScheduler`, a cycle needing two awaited I/O
completions is in flight when the next cron tick fires (no `resume` between
the ticks); because the cron callback (postScheduler.js lines 260-262)
invokes `processScheduledPosts()` without awaiting it and without any
running-cycle guard, the second tick starts a second cycle and two batch
cycles run concurrently — the claim requires at most one. -/
theorem C3_overlap_model :
    concurrentCycles (runSched 2 [SchedEvent.tick, SchedEvent.tick]) = 2 ∧
    1 < concurrentCycles (runSched 2 [SchedEvent.tick, SchedEvent.tick]) := by
  refine ⟨rfl, by decide⟩

/-!
Claim C4: the batch selector.
-/

/-- C4: for every store content and current time, the batch query returns only
rows with status `scheduled`, a due (non-NULL) `scheduled_at` not after now,
and an active owning account; at most `BATCH_SIZE = 10` rows are returned,
ordered ascending by `scheduled_at`. -/
theorem C4_batch_selector (rows : List ScheduledRow) (now : DateTime) :
    (∀ r ∈ processScheduledPostsQuery rows now,
      r.status = "scheduled" ∧ r.scheduled_at.isSome = true ∧
        schedKey r ≤ now.toMs ∧ r.is_active = true) ∧
    (processScheduledPostsQuery rows now).length ≤ BATCH_SIZE ∧
    (processScheduledPostsQuery rows now).Pairwise
      (fun a b => schedKey a ≤ schedKey b) := by
  refine ⟨?_, ?_, ?_⟩
  · intro r hr
    have hmem : r ∈ rows.filter (dueFilter now) := by
      have h1 := List.take_subset BATCH_SIZE _ hr
      simpa using h1
    have hdf : dueFilter now r = true := (List.mem_filter.mp hmem).2
    unfold dueFilter at hdf
    simp only [Bool.and_eq_true, decide_eq_true_eq] at hdf
    obtain ⟨⟨hst, hsc⟩, hact⟩ := hdf
    refine ⟨hst, ?_, ?_, hact⟩ <;>
      cases h : r.scheduled_at <;> rw [h] at hsc <;>
        simp_all [schedKey]
  · exact List.length_take_le _ _
  · have hs := @List.sorted_mergeSort ScheduledRow
      (fun a b : ScheduledRow => decide (schedKey a ≤ schedKey b))
      (fun a b c hab hbc => by
        simp only [decide_eq_true_eq] at hab hbc ⊢; omega)
      (fun a b => by
        simp only [Bool.or_eq_true, decide_eq_true_eq]
        exact Nat.le_total _ _)
      (rows.filter (dueFilter now))
    have ht := List.Pairwise.sublist (List.take_sublist BATCH_SIZE _) hs
    exact ht.imp (fun h => by simpa using h)

/-- Witness for C4 at a concrete store: a due scheduled row on an active
account is returned and satisfies all selection conditions. -/
theorem C4_batch_selector_witness :
    c2Row.status = "scheduled" ∧ c2Row.scheduled_at.isSome = true ∧
      schedKey c2Row ≤ c2Now.toMs ∧ c2Row.is_active = true :=
  (C4_batch_selector [c2Row] c2Now).1 c2Row (by
    have hq : processScheduledPostsQuery [c2Row] c2Now = [c2Row] := by
      unfold processScheduledPostsQuery
      rw [show List.filter (dueFilter c2Now) [c2Row] = [c2Row] from by decide]
      rw [List.mergeSort_singleton]
      decide
    rw [hq]
    exact List.mem_singleton.mpr rfl)

/-!
Claim C5: failed publish attempts.
-/

/-- Every failure result produced by `postToPlatform` carries an error
message: each failure return in postService.js sets `error` to either a
literal message or the coalesced `detail || message` of the thrown error,
which is always a string. -/
theorem postToPlatform_fail_error (p : Post) (tok : String) (api : ApiOracle) :
    (postToPlatform p tok api).2.success = false →
    (postToPlatform p tok api).2.error.isSome = true := by
  have hone : ∀ req : TweetReq, ∀ pair : List TweetReq × XResult,
      (match api 0 with
        | Except.ok tid => ([req], (⟨true, some tid, none, none⟩ : XResult))
        | Except.error e => ([req], ⟨false, none, none, some e.coalesce⟩)) = pair →
      pair.2.success = false → pair.2.error.isSome = true := by
    intro req pair hp
    cases h0 : api 0 <;> rw [h0] at hp <;> rw [← hp] <;> simp
  unfold postToPlatform
  by_cases h1 : jsOrStr p.mode "single" = "single"
  · rw [if_pos h1]
    unfold postSingleTweet
    exact hone _ _ rfl
  · rw [if_neg h1]
    by_cases h2 : jsOrStr p.mode "single" = "thread"
    · rw [if_pos h2]
      unfold postThread
      split
      · simp
      · split
        · simp
        · split
          · simp
          · split
            · simp
            · split <;> simp
    · rw [if_neg h2]
      by_cases h3 : jsOrStr p.mode "single" = "reply"
      · rw [if_pos h3]
        by_cases hr : jsTruthy p.reply_to_id = false
        · rw [if_pos hr]; simp
        · rw [if_neg hr]
          unfold postReply
          exact hone _ _ rfl
      · rw [if_neg h3]
        by_cases h4 : jsOrStr p.mode "single" = "quote"
        · rw [if_pos h4]
          by_cases hq : jsTruthy p.quote_tweet_id = false
          · rw [if_pos hq]; simp
          · rw [if_neg hq]
            unfold postQuote
            exact hone _ _ rfl
        · rw [if_neg h4]
          simp

/-- C5: for every post whose publish attempt fails (the transport returns a
failure result, including when an HTTP call throws), and whose failure write
succeeds, the post ends the cycle with status `failed`, a non-null error
message equal to the transport result's message, and a null published-item
id. -/
theorem C5_failed_publish (row : ScheduledRow) (pr : PostRecord) (api : ApiOracle)
    (now : DateTime) (postedErr : Option JsErr) (insertOk : Bool)
    (hplat : row.platform = "x")
    (htok : jsTruthy row.access_token = true)
    (hfail : (postToPlatform row.toPost (row.access_token.getD "") api).2.success = false)
    (hpid : pr.platform_post_id = none) :
    (processPost row pr api now postedErr true insertOk).record.status = "failed" ∧
    (processPost row pr api now postedErr true insertOk).record.error_message =
      (postToPlatform row.toPost (row.access_token.getD "") api).2.error ∧
    (processPost row pr api now postedErr true insertOk).record.error_message ≠ none ∧
    (processPost row pr api now postedErr true insertOk).record.platform_post_id = none := by
  have herr := postToPlatform_fail_error row.toPost (row.access_token.getD "") api hfail
  have hrec : (processPost row pr api now postedErr true insertOk).record =
      { pr with
          status := "failed",
          error_message := (postToPlatform row.toPost (row.access_token.getD "") api).2.error } := by
    simp [processPost, hplat, htok, hfail, markPostAsFailed]
  refine ⟨by rw [hrec], by rw [hrec], ?_, by rw [hrec]; exact hpid⟩
  rw [hrec]
  exact Option.ne_none_iff_isSome.mpr herr

/-- A reply-mode post with no reply reference, whose publish attempt
therefore fails before any HTTP call. -/
def c5Row : ScheduledRow :=
  { toPost := { c2Post with mode := some "reply", reply_to_id := none }
    platform := "x"
    access_token := some "tok"
    is_active := true }

/-- Witness for C5 at a concrete failing publish. -/
theorem C5_failed_publish_witness :
    (processPost c5Row scheduledRecord okApi c2Now none true true).record.status = "failed" ∧
    (processPost c5Row scheduledRecord okApi c2Now none true true).record.error_message =
      some "reply_to_id is required for reply mode" ∧
    (processPost c5Row scheduledRecord okApi c2Now none true true).record.error_message ≠ none ∧
    (processPost c5Row scheduledRecord okApi c2Now none true true).record.platform_post_id = none :=
  C5_failed_publish c5Row scheduledRecord okApi c2Now none true rfl (by decide)
    (by decide) rfl

/-!
Claim C6: validation failures never reach the transport.
-/

/-- C6: for every selected post whose owning account's platform is not the
supported `x`, or whose credential token is absent, no HTTP request is ever
made and no recurrence row is inserted; when the failure write succeeds the
post is marked `failed` with the corresponding descriptive message. -/
theorem C6_validation (row : ScheduledRow) (pr : PostRecord) (api : ApiOracle)
    (now : DateTime) (postedErr : Option JsErr) (failOk insertOk : Bool)
    (h : row.platform ≠ "x" ∨ jsTruthy row.access_token = false) :
    (processPost row pr api now postedErr failOk insertOk).requests = [] ∧
    (processPost row pr api now postedErr failOk insertOk).inserted = [] ∧
    (failOk = true →
      (processPost row pr api now postedErr failOk insertOk).record.status = "failed" ∧
      (processPost row pr api now postedErr failOk insertOk).record.error_message =
        some (if row.platform ≠ "x"
          then "Platform '" ++ row.platform ++ "' not yet supported"
          else "No access token found")) := by
  rcases h with h | h
  · refine ⟨?_, ?_, fun hf => ?_⟩
    · simp [processPost, h]
    · simp [processPost, h]
    · subst hf
      refine ⟨?_, ?_⟩ <;> simp [processPost, h, markPostAsFailed]
  · by_cases hp : row.platform = "x"
    · refine ⟨?_, ?_, fun hf => ?_⟩
      · simp [processPost, hp, h]
      · simp [processPost, hp, h]
      · subst hf
        refine ⟨?_, ?_⟩ <;> simp [processPost, hp, h, markPostAsFailed]
    · refine ⟨?_, ?_, fun hf => ?_⟩
      · simp [processPost, hp]
      · simp [processPost, hp]
      · subst hf
        refine ⟨?_, ?_⟩ <;> simp [processPost, hp, markPostAsFailed]

/-- A due post whose owning account is on an unsupported platform. -/
def c6Row : ScheduledRow :=
  { toPost := c2Post
    platform := "facebook"
    access_token := some "tok"
    is_active := true }

/-- Witness for C6 at a concrete unsupported-platform row. -/
theorem C6_validation_witness :
    (processPost c6Row scheduledRecord okApi c2Now none true true).requests = [] ∧
    (processPost c6Row scheduledRecord okApi c2Now none true true).record.status = "failed" ∧
    (processPost c6Row scheduledRecord okApi c2Now none true true).record.error_message =
      some "Platform 'facebook' not yet supported" :=
  ⟨(C6_validation c6Row scheduledRecord okApi c2Now none true true
      (Or.inl (by decide))).1,
    (C6_validation c6Row scheduledRecord okApi c2Now none true true
      (Or.inl (by decide))).2.2 rfl⟩

/-!
Claim C7: recurrence spawn/stop conditions.
-/

/-- C7: after a successful publish of a recurring post, no next occurrence is
inserted when the end time has already passed, when the occurrence index has
reached a set (nonzero) maximum count, or when the computed next due time
exceeds the end time — each condition suffices on its own; otherwise, when
the frequency is recognized and the INSERT succeeds, exactly one next
occurrence is inserted. -/
theorem C7_recurrence_limits (p : Post) (now : DateTime) (insertOk : Bool) :
    (untilPassed p.repeat_until now = true →
      createNextRecurringPost p now insertOk = []) ∧
    (countReached p.repeat_count p.repeat_occurrence = true →
      createNextRecurringPost p now insertOk = []) ∧
    (∀ nxt, nextByFrequency p.repeat_frequency (p.scheduled_at.getD now) = some nxt →
      exceedsUntil p.repeat_until nxt = true →
      createNextRecurringPost p now insertOk = []) ∧
    (untilPassed p.repeat_until now = false →
      countReached p.repeat_count p.repeat_occurrence = false →
      ∀ nxt, nextByFrequency p.repeat_frequency (p.scheduled_at.getD now) = some nxt →
      exceedsUntil p.repeat_until nxt = false →
      insertOk = true →
      (createNextRecurringPost p now insertOk).length = 1) := by
  refine ⟨?_, ?_, ?_, ?_⟩
  · intro h
    simp [createNextRecurringPost, computeNextRecurring, h]
  · intro h
    by_cases h1 : untilPassed p.repeat_until now
    · simp [createNextRecurringPost, computeNextRecurring, h1]
    · simp [createNextRecurringPost, computeNextRecurring, h1, h]
  · intro nxt hn hx
    by_cases h1 : untilPassed p.repeat_until now
    · simp [createNextRecurringPost, computeNextRecurring, h1]
    · by_cases h2 : countReached p.repeat_count p.repeat_occurrence
      · simp [createNextRecurringPost, computeNextRecurring, h1, h2]
      · simp [createNextRecurringPost, computeNextRecurring, h1, h2, hn, hx]
  · intro h1 h2 nxt hn hx hio
    subst hio
    simp [createNextRecurringPost, computeNextRecurring, h1, h2, hn, hx]

/-- Witness for C7: the concrete monthly post spawns exactly one occurrence
when no limit stops it. -/
theorem C7_recurrence_limits_witness :
    (createNextRecurringPost c1wPost c1wNow true).length = 1 :=
  (C7_recurrence_limits c1wPost c1wNow true).2.2.2 (by decide) (by decide)
    ⟨2024, 2, 15, 32400000⟩ (by decide) (by decide) rfl

/-!
Claim C8: contents of the spawned next occurrence.
-/

/-- C8: when a successfully published recurring post spawns a next occurrence,
the inserted row keeps the account, content, mode, mode-specific references
and media; has status `scheduled`; is due at the computed next time (for
frequency `daily` and a post due 2024-01-31T09:00:00Z that next time is
2024-02-01T09:00:00Z); has recurrence enabled; occurrence index one more than
the previous (1-based) index; and parent reference equal to the original
post's root reference, or the original post's id when it has none. -/
theorem C8_spawned_fields (p : Post) (now nxt : DateTime) (k : Nat)
    (h1 : untilPassed p.repeat_until now = false)
    (h2 : countReached p.repeat_count p.repeat_occurrence = false)
    (hn : nextByFrequency p.repeat_frequency (p.scheduled_at.getD now) = some nxt)
    (hx : exceedsUntil p.repeat_until nxt = false)
    (hocc : p.repeat_occurrence = some k) (hk : 1 ≤ k) :
    (createNextRecurringPost p now true).map Post.account_id = [p.account_id] ∧
    (createNextRecurringPost p now true).map Post.content = [p.content] ∧
    (createNextRecurringPost p now true).map Post.mode = [p.mode] ∧
    (createNextRecurringPost p now true).map Post.thread = [p.thread] ∧
    (createNextRecurringPost p now true).map Post.reply_to_id = [p.reply_to_id] ∧
    (createNextRecurringPost p now true).map Post.quote_tweet_id = [p.quote_tweet_id] ∧
    (createNextRecurringPost p now true).map Post.media = [p.media] ∧
    (createNextRecurringPost p now true).map Post.status = ["scheduled"] ∧
    (createNextRecurringPost p now true).map Post.scheduled_at = [some nxt] ∧
    (createNextRecurringPost p now true).map Post.repeat_enabled = [true] ∧
    (createNextRecurringPost p now true).map Post.repeat_occurrence = [some (k + 1)] ∧
    (p.repeat_parent_id = none →
      (createNextRecurringPost p now true).map Post.repeat_parent_id = [some p.id]) ∧
    (∀ r, p.repeat_parent_id = some r → r ≠ 0 →
      (createNextRecurringPost p now true).map Post.repeat_parent_id = [some r]) ∧
    (∀ t, p.repeat_frequency = some "daily" →
      p.scheduled_at = some ⟨2024, 0, 31, t⟩ → nxt = ⟨2024, 1, 1, t⟩) := by
  have hknz : k ≠ 0 := by omega
  have hq : createNextRecurringPost p now true = [mkNextPost p nxt] := by
    simp [createNextRecurringPost, computeNextRecurring, h1, h2, hn, hx]
  refine ⟨?_, ?_, ?_, ?_, ?_, ?_, ?_, ?_, ?_, ?_, ?_, ?_, ?_, ?_⟩
  · rw [hq]; simp [mkNextPost]
  · rw [hq]; simp [mkNextPost]
  · rw [hq]; simp [mkNextPost]
  · rw [hq]; simp [mkNextPost]
  · rw [hq]; simp [mkNextPost]
  · rw [hq]; simp [mkNextPost]
  · rw [hq]; simp [mkNextPost]
  · rw [hq]; simp [mkNextPost]
  · rw [hq]; simp [mkNextPost]
  · rw [hq]; simp [mkNextPost]
  · rw [hq]; simp [mkNextPost, jsOrNat, hocc, hknz]
  · intro hpar
    rw [hq]; simp [mkNextPost, jsOrNat, hpar]
  · intro r hr hrnz
    rw [hq]; simp [mkNextPost, jsOrNat, hr, hrnz]
  · intro t hf hs
    rw [hf, hs] at hn
    simp only [nextByFrequency, Option.getD_some] at hn
    have hnd : normDate 32 2024 0 32 = (2024, 1, 1) := by decide
    have he : DateTime.setDate ⟨2024, 0, 31, t⟩ ((⟨2024, 0, 31, t⟩ : DateTime).day + 1) =
        ⟨2024, 1, 1, t⟩ := by
      simp [DateTime.setDate, resolveDate, hnd]
    rw [he] at hn
    exact (Option.some_inj.mp hn).symm

/-- The C8 witness post: daily recurrence, due 2024-01-31T09:00:00Z, first
occurrence, no parent reference. -/
def c8Post : Post :=
  { c2Post with
      repeat_enabled := true,
      repeat_frequency := some "daily",
      repeat_occurrence := some 1 }

/-- Witness for C8: the spawned occurrence of the concrete daily post is due
2024-02-01T09:00:00Z with occurrence index 2 and parent reference the
original post's id. -/
theorem C8_spawned_fields_witness :
    (createNextRecurringPost c8Post c2Now true).map Post.scheduled_at =
      [some ⟨2024, 1, 1, 32400000⟩] ∧
    (createNextRecurringPost c8Post c2Now true).map Post.repeat_occurrence = [some 2] ∧
    (createNextRecurringPost c8Post c2Now true).map Post.repeat_parent_id = [some 11] ∧
    (createNextRecurringPost c8Post c2Now true).map Post.status = ["scheduled"] := by
  obtain ⟨-, -, -, -, -, -, -, hstat, hsched, -, hocc2, hpar, -, -⟩ :=
    C8_spawned_fields c8Post c2Now ⟨2024, 1, 1, 32400000⟩ 1 (by decide) (by decide)
      (by decide) (by decide) rfl (by decide)
  exact ⟨hsched, hocc2, hpar rfl, hstat⟩

/-!
Claim C9: thread publication order.
-/

/-- The requests the thread reply loop makes when every HTTP call succeeds
with ids given by `f`: the first remaining segment replies to `rid`, and each
later segment replies to the id `f` returned for the invocation before it. -/
def threadTailReqs (f : Nat → String) : Nat → String → List String → List TweetReq
  | _, _, [] => []
  | i, rid, t :: rest => ⟨t, some rid, none, none⟩ :: threadTailReqs f (i+1) (f i) rest

/-- The ids returned for `n` successive successful invocations starting at
invocation index `i`. -/
def threadTailIds (f : Nat → String) : Nat → Nat → List String
  | _, 0 => []
  | i, n+1 => f i :: threadTailIds f (i+1) n

theorem threadTailReqs_length (f : Nat → String) :
    ∀ (rest : List String) (i : Nat) (rid : String),
    (threadTailReqs f i rid rest).length = rest.length := by
  intro rest
  induction rest with
  | nil => intro i rid; simp [threadTailReqs]
  | cons t rest ih => intro i rid; simp [threadTailReqs, ih]

theorem postThreadLoop_ok (api : ApiOracle) (f : Nat → String) :
    ∀ (rest : List String) (i : Nat) (rid : String),
    (∀ j, j < rest.length → api (i + j) = Except.ok (f (i + j))) →
    postThreadLoop api i rid rest =
      (threadTailReqs f i rid rest, Except.ok (threadTailIds f i rest.length)) := by
  intro rest
  induction rest with
  | nil =>
    intro i rid h
    simp [postThreadLoop, threadTailReqs, threadTailIds]
  | cons t rest ih =>
    intro i rid h
    have h0 : api i = Except.ok (f i) := by
      have hx := h 0 (by simp)
      simpa using hx
    have hnext : ∀ j, j < rest.length → api (i + 1 + j) = Except.ok (f (i + 1 + j)) := by
      intro j hj
      have hx := h (j + 1) (by simp; omega)
      have heq : i + (j + 1) = i + 1 + j := by omega
      rw [heq] at hx
      exact hx
    simp [postThreadLoop, h0, ih (i+1) (f i) hnext, threadTailReqs, threadTailIds]

theorem threadTailReqs_get (f : Nat → String) :
    ∀ (rest : List String) (i : Nat) (rid : String) (k : Nat),
    (threadTailReqs f i rid rest).get? k =
      (rest.get? k).map (fun t =>
        (⟨t, some (if k = 0 then rid else f (i + k - 1)), none, none⟩ : TweetReq)) := by
  intro rest
  induction rest with
  | nil => intro i rid k; simp [threadTailReqs]
  | cons t rest ih =>
    intro i rid k
    cases k with
    | zero => simp [threadTailReqs]
    | succ k =>
      simp only [threadTailReqs, List.get?_cons_succ]
      rw [ih (i+1) (f i) k]
      have harg : (if k = 0 then f i else f (i + k)) = f (i + k) := by
        by_cases hk0 : k = 0
        · subst hk0; simp
        · rw [if_neg hk0]
      simp [harg]

/-- C9: for every thread-mode post with at least 2 segments whose HTTP calls
all succeed with ids given by `f`, `postThread` makes one invocation per
segment in strict array order (the i-th request's text is the i-th segment),
and every invocation after the first carries, as its reply reference, exactly
the id returned by the immediately preceding invocation. -/
theorem C9_thread_order (ts : List String) (tok : String)
    (media : Option (List String)) (api : ApiOracle) (f : Nat → String)
    (hn : 2 ≤ ts.length)
    (hok : ∀ j, j < ts.length → api j = Except.ok (f j)) :
    (postThread (some ts) tok media api).1.length = ts.length ∧
    (∀ i, i < ts.length →
      ((postThread (some ts) tok media api).1.get? i).map TweetReq.text = ts.get? i) ∧
    (∀ i, 1 ≤ i → i < ts.length →
      ((postThread (some ts) tok media api).1.get? i).map TweetReq.replyTo =
        some (some (f (i - 1)))) ∧
    (postThread (some ts) tok media api).2.success = true := by
  obtain ⟨t0, rest, rfl⟩ : ∃ t0 rest, ts = t0 :: rest := by
    cases ts with
    | nil => simp at hn
    | cons a l => exact ⟨a, l, rfl⟩
  have hlen : ¬((t0 :: rest).length < 2) := by
    simp at hn ⊢
    omega
  have hlen2 : 1 ≤ rest.length := by
    simp at hn
    omega
  have h0 : api 0 = Except.ok (f 0) := hok 0 (by simp)
  have hrest : ∀ j, j < rest.length → api (1 + j) = Except.ok (f (1 + j)) := by
    intro j hj
    exact hok (1 + j) (by simp; omega)
  have hq : postThread (some (t0 :: rest)) tok media api =
      ((⟨t0, none, none, media⟩ : TweetReq) :: threadTailReqs f 1 (f 0) rest,
        ⟨true, some (f 0), some (f 0 :: threadTailIds f 1 rest.length), none⟩) := by
    simp [postThread, hlen, hlen2, h0, postThreadLoop_ok api f rest 1 (f 0) hrest]
  refine ⟨?_, ?_, ?_, ?_⟩
  · rw [hq]
    simp [threadTailReqs_length]
  · intro i hi
    rw [hq]
    cases i with
    | zero => simp
    | succ k =>
      simp only [List.get?_cons_succ, threadTailReqs_get]
      cases h : rest.get? k <;> simp
  · intro i h1 hi
    rw [hq]
    obtain ⟨k, rfl⟩ : ∃ k, i = k + 1 := ⟨i - 1, by omega⟩
    simp only [List.get?_cons_succ, threadTailReqs_get]
    have hk : k < rest.length := by
      simp at hi
      omega
    rcases List.get?_eq_get hk with h
    rw [h]
    have harg : (if k = 0 then f 0 else f (1 + k - 1)) = f k := by
      by_cases hk0 : k = 0
      · subst hk0; simp
      · rw [if_neg hk0]
        congr 1
        omega
    simp [harg]
    intro hk0
    subst hk0
    rfl
  · rw [hq]

/-- Ids returned by the three successful thread invocations of the witness. -/
def c9Ids : Nat → String :=
  fun j => if j = 0 then "id0" else if j = 1 then "id1" else "id2"

/-- Oracle on which every thread invocation succeeds with `c9Ids`. -/
def c9Api : ApiOracle := fun j => Except.ok (c9Ids j)

/-- Witness for C9 on a concrete 3-segment thread: the third invocation
replies to the id returned by the second, and the thread publish succeeds. -/
theorem C9_thread_order_witness :
    ((postThread (some ["a", "b", "c"]) "tok" none c9Api).1.get? 2).map TweetReq.replyTo =
      some (some "id1") ∧
    (postThread (some ["a", "b", "c"]) "tok" none c9Api).2.success = true :=
  ⟨(C9_thread_order ["a", "b", "c"] "tok" none c9Api c9Ids (by decide)
      (fun j _ => rfl)).2.2.1 2 (by decide) (by decide),
    (C9_thread_order ["a", "b", "c"] "tok" none c9Api c9Ids (by decide)
      (fun j _ => rfl)).2.2.2⟩

/-!
Claim C10: mode dispatch of postToPlatform.
-/

/-- A post whose `mode` column holds the empty string. -/
def c10Post : Post := { c2Post with mode := some "" }

/-- C10 counterexample: the empty-string mode lies outside
`{single, thread, reply, quote}` and is neither absent nor null, yet
`post.mode || 'single'` is `'single'` for it (the empty string is falsy in
JS), so the post is dispatched to the single-tweet path: the transport is
invoked once and no `Unknown post mode` failure is produced. -/
theorem C10_counterexample :
    c10Post.mode = some "" ∧
    "" ∉ (["single", "thread", "reply", "quote"] : List String) ∧
    (postToPlatform c10Post "tok" okApi).1.length = 1 ∧
    (postToPlatform c10Post "tok" okApi).2.success = true ∧
    (postToPlatform c10Post "tok" okApi).2.error = none := by
  refine ⟨by decide, by decide, by decide, by decide, by decide⟩

/-- C10 amended: `postToPlatform` (a total function) dispatches a post whose
mode is absent, null, or the empty string as mode `single`; a post whose mode
is a nonempty string outside `{single, thread, reply, quote}` yields a
failure result carrying an `Unknown post mode` message, with no transport
invocation; and a reply-mode post without a (truthy) reply reference, or a
quote-mode post without a (truthy) quote reference, yields the corresponding
failure result with no transport invocation. -/
theorem C10_amended (p : Post) (tok : String) (api : ApiOracle) :
    (jsTruthy p.mode = false →
      postToPlatform p tok api = postSingleTweet p.content tok p.media api) ∧
    (∀ m, p.mode = some m → m ≠ "" →
      m ∉ (["single", "thread", "reply", "quote"] : List String) →
      postToPlatform p tok api =
        ([], ⟨false, none, none, some ("Unknown post mode: " ++ m)⟩)) ∧
    (p.mode = some "reply" → jsTruthy p.reply_to_id = false →
      postToPlatform p tok api =
        ([], ⟨false, none, none, some "reply_to_id is required for reply mode"⟩)) ∧
    (p.mode = some "quote" → jsTruthy p.quote_tweet_id = false →
      postToPlatform p tok api =
        ([], ⟨false, none, none, some "quote_tweet_id is required for quote mode"⟩)) := by
  refine ⟨?_, ?_, ?_, ?_⟩
  · intro h
    have hm : jsOrStr p.mode "single" = "single" := by
      cases hp : p.mode with
      | none => rfl
      | some s =>
        rw [hp] at h
        simp [jsTruthy] at h
        simp [jsOrStr, h]
    simp [postToPlatform, hm]
  · intro m hm hne hnot
    have hj : jsOrStr p.mode "single" = m := by simp [jsOrStr, hm, hne]
    obtain ⟨h1, h2, h3, h4⟩ :
        m ≠ "single" ∧ m ≠ "thread" ∧ m ≠ "reply" ∧ m ≠ "quote" := by
      simpa using hnot
    simp [postToPlatform, hj, h1, h2, h3, h4]
  · intro hm hr
    have hj : jsOrStr p.mode "single" = "reply" := by simp [jsOrStr, hm]
    simp [postToPlatform, hj, hr]
  · intro hm hquo
    have hj : jsOrStr p.mode "single" = "quote" := by simp [jsOrStr, hm]
    simp [postToPlatform, hj, hquo]

/-- Witness for C10 amended: a concrete nonempty unknown mode yields the
`Unknown post mode` failure with zero transport invocations. -/
theorem C10_amended_witness :
    postToPlatform { c2Post with mode := some "story" } "tok" okApi =
      ([], ⟨false, none, none, some "Unknown post mode: story"⟩) :=
  (C10_amended { c2Post with mode := some "story" } "tok" okApi).2.1 "story" rfl
    (by decide) (by decide)
